import Mathlib

/-!
# PixiDisplay and DrawingApp

A shallow embedding of `src/src/PixiDisplay.js` (the display adapter) and of the
module state and `destroy` path of `src/examples/DrawingApp.js`.

JavaScript objects that the code shares by reference (DOM elements, Pixi stages and
renderers) live in a `World` and are named by handles (indices).  A method takes the
world and the receiver and gives back the receiver, the world and a completion: a
statement that throws keeps every assignment made before it.  Calls into the Pixi
library, which is not part of the repository, are recorded in a trace.
-/

namespace CloudKid

/-! ## JavaScript values and completions -/

/-- Errors raised by the JavaScript runtime itself. -/
inductive JSError where
  | TypeError
  | ReferenceError
  deriving DecidableEq, Repr

/-- How a call ends: it returns, or an exception propagates to the caller. -/
inductive Completion where
  | normal
  | thrown (e : JSError)
  deriving DecidableEq, Repr

/-- Primitive values an option field can hold. -/
inductive JSVal where
  | undefined
  | null
  | bool (b : Bool)
  | num (n : Int)
  | str (s : String)
  deriving DecidableEq, Repr

/-- ToBoolean on primitives: what `!!v` and the left side of `v || x` test. -/
def truthy : JSVal → Bool
  | .undefined => false
  | .null => false
  | .bool b => b
  | .num n => n != 0
  | .str s => s != ""

/-- The expression `v || fallback`. -/
def orElse (v fallback : JSVal) : JSVal :=
  if truthy v then v else fallback

/-- The comparison `v == "lit"` for a literal that is not a numeric string (the two
literals in the source are "canvas2d" and "webgl"): only an equal string compares
equal, since the literal converts to NaN against numbers and booleans. -/
def looseEqLit (v : JSVal) (lit : String) : Bool :=
  match v with
  | .str s => s == lit
  | _ => false

/-- The configuration object of the constructor; an absent property reads `undefined`. -/
structure Options where
  forceContext : JSVal
  clearView : JSVal
  backgroundColor : JSVal
  transparent : JSVal
  preMultAlpha : JSVal
  deriving DecidableEq, Repr

/-- The object literal `{}` of line 27. -/
def Options.empty : Options :=
  ⟨.undefined, .undefined, .undefined, .undefined, .undefined⟩

/-! ## The world: DOM, Pixi objects, global bindings -/

/-- A canvas element of the page, with the properties the adapter reads and writes.
An element without an id has `id` the empty string. -/
structure Element where
  id : String
  width : Int
  height : Int
  styleDisplay : String
  deriving DecidableEq, Repr

/-- Which Pixi entry point made a renderer. -/
inductive RendererCtor where
  | CanvasRenderer
  | WebGLRenderer
  | autoDetectRenderer
  deriving DecidableEq, Repr

/-- A renderer as the adapter sees it: the entry point and arguments it was made with,
and the `clearView` property (`none` until the adapter assigns it). -/
structure Renderer where
  ctor : RendererCtor
  width : Int
  height : Int
  view : Nat
  transparent : Bool
  antialias : Option Bool
  preMultAlpha : Option Bool
  clearView : Option Bool
  deriving DecidableEq, Repr

/-- A `PIXI.Stage`, with the background colour argument it was made with. -/
structure Stage where
  backgroundColor : JSVal
  deriving DecidableEq, Repr

/-- Method calls made on Pixi objects, in order. -/
inductive Call where
  | setInteractive (stage : Nat) (value : Bool)
  | forceUpdateInteraction (stage : Nat)
  | removeChildren (stage : Nat) (recursive : Bool)
  | stageDestroy (stage : Nat)
  | rendererRender (renderer : Nat) (stage : Option Nat)
  | rendererDestroy (renderer : Nat)
  deriving DecidableEq, Repr

/-- What the free identifier `stage` of lines 151, 155 and 158 resolves to.  The file
declares no variable of that name, so the lookup ends in the global scope. -/
inductive GlobalBinding where
  | unbound
  | nonStage
  | stage (s : Nat)
  deriving DecidableEq, Repr

/-- The environment a display runs in. -/
structure World where
  -- the elements of the document; a handle is an index
  elements : List Element
  -- the global binding of the name stage
  globalStage : GlobalBinding
  -- what a read of the property options finds on the prototype chain above
  -- PixiDisplay.prototype, which itself has no such property; none is undefined
  inheritedOptions : Option Options
  -- allocated stages; a handle is an index
  stages : List Stage
  -- allocated renderers; a handle is an index
  renderers : List Renderer
  -- the trace of calls on Pixi objects
  calls : List Call
  deriving DecidableEq, Repr

/-- Appends a call to the trace. -/
def World.log (w : World) (c : Call) : World :=
  { w with calls := w.calls ++ [c] }

/-- Applies `f` to the object behind handle `i`. -/
def updateAt {α : Type} (l : List α) (i : Nat) (f : α → α) : List α :=
  match l[i]? with
  | some a => l.set i (f a)
  | none => l

/-- The call `document.getElementById(id)`: the first element with that id, or null.
An element whose `id` is the empty string has no id and is never found. -/
def getElementById (w : World) (id : String) : Option Nat :=
  w.elements.findIdx? (fun e => e.id != "" && e.id == id)

/-- The default of the `width` attribute of a canvas. -/
def canvasDefaultWidth : Int := 300

/-- The default of the `height` attribute of a canvas. -/
def canvasDefaultHeight : Int := 150

/-- An assignment of an integer to the `width` or `height` of a canvas.  Both are
`unsigned long` attributes of the DOM: the number is taken modulo 2^32, and the
attribute keeps it when it is at most 2147483647 and falls back to its default
otherwise. -/
def setUnsignedLong (dflt value : Int) : Int :=
  let x := value % 4294967296
  if x ≤ 2147483647 then x else dflt

/-! ## PixiDisplay -/

/-- The fields of a PixiDisplay instance; `none` is `null`. -/
structure PixiDisplay where
  id : Option String
  canvas : Option Nat
  width : Int
  height : Int
  stage : Option Nat
  renderer : Option Nat
  paused : Bool
  _enabled : Bool
  _visible : Bool
  deriving DecidableEq, Repr

/-- The result of a method: receiver, world and completion. -/
structure Outcome where
  self : PixiDisplay
  world : World
  completion : Completion
  deriving DecidableEq, Repr

namespace PixiDisplay

/-- The defaults on `PixiDisplay.prototype` (lines 80 to 168). -/
def proto : PixiDisplay :=
  { id := none, canvas := none, width := 0, height := 0, stage := none,
    renderer := none, paused := false, _enabled := false, _visible := false }

/-- The getter of `enabled` (line 145). -/
def get_enabled (d : PixiDisplay) : Bool :=
  d._enabled

/-- The setter of `enabled` (lines 146 to 160).  The receiver is `stage`, not
`this.stage`. -/
def set_enabled (d : PixiDisplay) (w : World) (value : Bool) : Outcome :=
  let d := { d with _enabled := value }
  match w.globalStage with
  | .unbound => ⟨d, w, .thrown .ReferenceError⟩
  | .nonStage => ⟨d, w, .thrown .TypeError⟩
  | .stage s =>
    if value then
      ⟨d, w.log (.setInteractive s true), .normal⟩
    else
      ⟨d, (w.log (.setInteractive s false)).log (.forceUpdateInteraction s), .normal⟩

/-- The getter of `visible` (line 176). -/
def get_visible (d : PixiDisplay) : Bool :=
  d._visible

/-- The setter of `visible` (lines 177 to 181). -/
def set_visible (d : PixiDisplay) (w : World) (value : Bool) : Outcome :=
  let d := { d with _visible := value }
  match d.canvas with
  | none => ⟨d, w, .thrown .TypeError⟩
  | some c =>
    let display := if value then "block" else "none"
    ⟨d, { w with elements := updateAt w.elements c (fun e => { e with styleDisplay := display }) },
      .normal⟩

/-- The method `resize` (lines 191 to 195), for integer arguments.  The two
assignments go through the attribute setters of the canvas element. -/
def resize (d : PixiDisplay) (w : World) (width height : Int) : Outcome :=
  match d.canvas with
  | none => ⟨d, w, .thrown .TypeError⟩
  | some c =>
    let newWidth := setUnsignedLong canvasDefaultWidth width
    let newHeight := setUnsignedLong canvasDefaultHeight height
    let w := { w with elements := updateAt w.elements c (fun e => { e with width := newWidth }) }
    let w := { w with elements := updateAt w.elements c (fun e => { e with height := newHeight }) }
    ⟨d, w, .normal⟩

/-- The method `render` (lines 204 to 209); `elapsed` is not read. -/
def render (d : PixiDisplay) (w : World) (_elapsed : Int) : Outcome :=
  if d.paused || !d._visible then
    ⟨d, w, .normal⟩
  else
    match d.renderer with
    | none => ⟨d, w, .thrown .TypeError⟩
    | some r => ⟨d, w.log (.rendererRender r d.stage), .normal⟩

/-- The method `destroy` (lines 218 to 225). -/
def destroy (d : PixiDisplay) (w : World) : Outcome :=
  let o := d.set_enabled w false
  match o.completion with
  | .thrown e => ⟨o.self, o.world, .thrown e⟩
  | .normal =>
    let d := o.self
    let w := o.world
    match d.stage with
    | none => ⟨d, w, .thrown .TypeError⟩
    | some s =>
      let w := w.log (.removeChildren s true)
      let w := w.log (.stageDestroy s)
      match d.renderer with
      | none => ⟨d, w, .thrown .TypeError⟩
      | some r =>
        let w := w.log (.rendererDestroy r)
        ⟨{ d with renderer := none, stage := none, canvas := none }, w, .normal⟩

/-- The renderer made by lines 37 to 67 from the resolved `this.options`. -/
def makeRenderer (thisOptions : Options) (width height : Int) (canvas : Nat) : Renderer :=
  let transparent := truthy thisOptions.transparent || false
  let preMultAlpha := truthy thisOptions.preMultAlpha || false
  if looseEqLit thisOptions.forceContext "canvas2d" then
    { ctor := .CanvasRenderer, width := width, height := height, view := canvas,
      transparent := transparent, antialias := none, preMultAlpha := none, clearView := none }
  else if looseEqLit thisOptions.forceContext "webgl" then
    { ctor := .WebGLRenderer, width := width, height := height, view := canvas,
      transparent := transparent, antialias := some false, preMultAlpha := some preMultAlpha,
      clearView := none }
  else
    { ctor := .autoDetectRenderer, width := width, height := height, view := canvas,
      transparent := transparent, antialias := some false, preMultAlpha := some preMultAlpha,
      clearView := none }

/-- The constructor (lines 24 to 70), run on a fresh object whose prototype is
`PixiDisplay.prototype`.  `options` is `none` when the argument is omitted. -/
def constructor (w : World) (id : String) (options : Option Options) : Outcome :=
  let self : PixiDisplay := { proto with id := some id }
  let options : Options := options.getD Options.empty
  let self := { self with canvas := getElementById w id }
  match self.canvas with
  | none => ⟨self, w, .thrown .TypeError⟩
  | some c =>
    match w.elements[c]? with
    | none => ⟨self, w, .thrown .TypeError⟩
    | some el =>
      let self := { self with width := el.width }
      let self := { self with height := el.height }
      let self := { self with _visible := el.styleDisplay != "none" }
      -- line 33 reads this.options, which is not assigned anywhere in the file
      match w.inheritedOptions with
      | none => ⟨self, w, .thrown .TypeError⟩
      | some thisOptions =>
        let s := w.stages.length
        let w := { w with stages := w.stages ++ [Stage.mk (orElse thisOptions.backgroundColor (.num 0))] }
        let self := { self with stage := some s }
        let r := w.renderers.length
        let w := { w with
          renderers := w.renderers ++ [makeRenderer thisOptions self.width self.height c] }
        let self := { self with renderer := some r }
        let w := { w with
          renderers := updateAt w.renderers r
            (fun x => { x with clearView := some (truthy options.clearView) }) }
        self.set_enabled w true

end PixiDisplay

/-! ## The active life of a display -/

/-- What the host can do with a display between construction and `destroy`. -/
inductive Op where
  | resize (width height : Int)
  | render (elapsed : Int)
  | setEnabled (value : Bool)
  | setVisible (value : Bool)
  | setPaused (value : Bool)
  deriving DecidableEq, Repr

/-- One operation on a display. -/
def Op.apply (op : Op) (d : PixiDisplay) (w : World) : Outcome :=
  match op with
  | .resize width height => d.resize w width height
  | .render elapsed => d.render w elapsed
  | .setEnabled value => d.set_enabled w value
  | .setVisible value => d.set_visible w value
  | .setPaused value => ⟨{ d with paused := value }, w, .normal⟩

/-- A sequence of operations, each on the state the one before has left; an operation
that throws leaves its state to the next one.  The pair is the display and the world
at the end. -/
def runOps : List Op → PixiDisplay → World → PixiDisplay × World
  | [], d, w => (d, w)
  | op :: ops, d, w => runOps ops (op.apply d w).self (op.apply d w).world

/-! ## DrawingApp (src/examples/DrawingApp.js) -/

/-- A module level variable that holds an object: declared and never assigned
(`undefined`), set to `null`, or a reference to an object. -/
inductive Ref where
  | undefined
  | null
  | obj (h : Nat)
  deriving DecidableEq, Repr

/-- Calls and property writes the application makes on its collaborators, in order. -/
inductive AppCall where
  | debugLog (msg : String)
  | addChild (stage child : Nat)
  | setMouseup (stage : Nat) (handler : Bool)
  | setMousedown (stage : Nat) (handler : Bool)
  | loadAssets
  | graphicsClear (shape : Nat)
  | lineStyle (shape : Nat) (lineWidth color alpha : Nat)
  | onUpdate
  | buttonDestroy (button : Nat)
  | removeChildren (stage : Nat)
  deriving DecidableEq, Repr

/-- The variables of the module closure (lines 15 to 30) that `init`,
`_onCompletedLoad` and `destroy` assign, with the trace of calls and the next free
object handle. -/
structure DrawingApp where
  stage : Ref
  sprite : Ref
  texture : Ref
  currentShape : Ref
  button : Ref
  trace : List AppCall
  nextHandle : Nat
  deriving DecidableEq, Repr

/-- The result of a DrawingApp method. -/
structure AppOutcome where
  app : DrawingApp
  completion : Completion
  deriving DecidableEq, Repr

namespace DrawingApp

/-- The module state when the file has been evaluated: every variable is declared
without a value.  Handle 0 is kept for the stage of the display. -/
def loaded : DrawingApp :=
  { stage := .undefined, sprite := .undefined, texture := .undefined,
    currentShape := .undefined, button := .undefined, trace := [], nextHandle := 1 }

/-- Appends a call to the trace. -/
def log (m : DrawingApp) (c : AppCall) : DrawingApp :=
  { m with trace := m.trace ++ [c] }

/-- The method `_clear` (lines 98 to 102). -/
def _clear (m : DrawingApp) : AppOutcome :=
  match m.currentShape with
  | .obj g => ⟨(m.log (.graphicsClear g)).log (.lineStyle g 3 0xCCCCCC 1), .normal⟩
  | _ => ⟨m, .thrown .TypeError⟩

/-- The method `init` (lines 35 to 63); `displayStage` is `this.display.stage`.  The
writes to `sprite.position` touch no module variable and are left out. -/
def init (m : DrawingApp) (displayStage : Ref) : AppOutcome :=
  let m := m.log (.debugLog "DrawingApp is ready to use.")
  let m := { m with stage := displayStage }
  let m := { m with texture := .obj m.nextHandle, nextHandle := m.nextHandle + 1 }
  let m := { m with sprite := .obj m.nextHandle, nextHandle := m.nextHandle + 1 }
  match m.stage, m.sprite with
  | .obj s, .obj sp =>
    let m := m.log (.addChild s sp)
    let m := m.log (.setMouseup s true)
    let m := m.log (.setMousedown s true)
    let m := m.log .loadAssets
    let m := { m with currentShape := .obj m.nextHandle, nextHandle := m.nextHandle + 1 }
    match m.currentShape with
    | .obj g =>
      let m := m.log (.addChild s g)
      let o := m._clear
      match o.completion with
      | .thrown e => ⟨o.app, .thrown e⟩
      | .normal => ⟨o.app.log .onUpdate, .normal⟩
    | _ => ⟨m, .thrown .TypeError⟩
  | _, _ => ⟨m, .thrown .TypeError⟩

/-- The callback `_onCompletedLoad` (lines 68 to 93): the button is made and added to
the stage; the writes to its position and release callback are left out. -/
def _onCompletedLoad (m : DrawingApp) : AppOutcome :=
  let m := { m with button := .obj m.nextHandle, nextHandle := m.nextHandle + 1 }
  match m.stage, m.button with
  | .obj s, .obj b => ⟨m.log (.addChild s b), .normal⟩
  | _, _ => ⟨m, .thrown .TypeError⟩

/-- The method `destroy` (lines 138 to 164).  A test `if (x)` on a module variable
passes exactly when it holds an object. -/
def destroy (m : DrawingApp) : AppOutcome :=
  let m := m.log (.debugLog "DrawingApp destroy.")
  let m :=
    match m.stage with
    | .obj s => (m.log (.setMouseup s false)).log (.setMousedown s false)
    | _ => m
  let m :=
    match m.button with
    | .obj b => { m.log (.buttonDestroy b) with button := .null }
    | _ => m
  let m :=
    match m.currentShape with
    | .obj g => { m.log (.graphicsClear g) with currentShape := .null }
    | _ => m
  let m := { m with stage := .null }
  let m := { m with sprite := .null }
  let m := { m with texture := .null }
  match m.stage with
  | .obj s => ⟨m.log (.removeChildren s), .normal⟩
  | _ => ⟨m, .thrown .TypeError⟩

end DrawingApp

/-! ## Sample states -/

/-- A page with one visible 800 by 600 canvas, no global named `stage` and no inherited
`options` property. -/
def page : World :=
  { elements := [⟨"canvas", 800, 600, ""⟩], globalStage := .unbound,
    inheritedOptions := none, stages := [], renderers := [], calls := [] }

/-- The page with the stage and the renderer of one display allocated. -/
def livePage : World :=
  { page with
    stages := [⟨.num 0⟩],
    renderers := [⟨.autoDetectRenderer, 800, 600, 0, false, some false, some false,
      some false⟩] }

/-- A display bound to the canvas of `livePage`, with the field values lines 26 to 69
assign. -/
def liveDisplay : PixiDisplay :=
  { id := some "canvas", canvas := some 0, width := 800, height := 600, stage := some 0,
    renderer := some 0, paused := false, _enabled := true, _visible := true }

/-- A page whose global scope binds `stage` to the stage of `liveDisplay`. -/
def boundPage : World :=
  { livePage with globalStage := .stage 0 }

/-- A page on which construction completes: an `options` property is inherited and the
global name `stage` denotes a stage (object 0) made before the display. -/
def hostPage : World :=
  { page with
    globalStage := .stage 0, inheritedOptions := some Options.empty,
    stages := [⟨.num 0⟩] }

/-- The module state of DrawingApp after `init` on a display whose stage is object 0,
before the button sheet has loaded. -/
def appAfterInit : DrawingApp :=
  (DrawingApp.loaded.init (.obj 0)).app

/-- The module state of DrawingApp after `init` and `_onCompletedLoad`. -/
def appWithButton : DrawingApp :=
  (appAfterInit._onCompletedLoad).app

/-! ## Lemmas on handles -/

theorem updateAt_getElem?_self {α : Type} (l : List α) (i : Nat) (f : α → α) (a : α)
    (h : l[i]? = some a) : (updateAt l i f)[i]? = some (f a) := by
  have hi : i < l.length := by
    rcases List.getElem?_eq_some.mp h with ⟨hi, _⟩
    exact hi
  simp [updateAt, h, List.getElem?_set, hi]

theorem updateAt_getElem?_other {α : Type} (l : List α) (i j : Nat) (f : α → α)
    (hij : i ≠ j) : (updateAt l i f)[j]? = l[j]? := by
  unfold updateAt
  cases h : l[i]? with
  | none => rfl
  | some a => simp [List.getElem?_set, hij]

theorem updateAt_length {α : Type} (l : List α) (i : Nat) (f : α → α) :
    (updateAt l i f).length = l.length := by
  unfold updateAt
  cases h : l[i]? with
  | none => rfl
  | some a => simp

theorem setUnsignedLong_in_range (dflt value : Int) (h0 : 0 ≤ value)
    (h1 : value ≤ 2147483647) : setUnsignedLong dflt value = value := by
  have hm : value % 4294967296 = value := Int.emod_eq_of_lt h0 (by omega)
  simp [setUnsignedLong, hm, h1]

/-! ## render -/

/-- C1: for every elapsed value, `render` on a display that is paused or not visible
returns with the display and the world (so the call trace too) unchanged; on an
unpaused, visible display that holds a renderer it returns with the trace extended by
exactly one call, `renderer.render` on that renderer with the stage of the display as
argument, and nothing else changed. -/
theorem render_contract (d : PixiDisplay) (w : World) (elapsed : Int) :
    ((d.paused = true ∨ d.get_visible = false) → d.render w elapsed = ⟨d, w, .normal⟩) ∧
    (∀ r, d.paused = false → d.get_visible = true → d.renderer = some r →
      d.render w elapsed =
        ⟨d, { w with calls := w.calls ++ [Call.rendererRender r d.stage] }, .normal⟩) := by
  refine ⟨?_, ?_⟩
  · intro h
    rcases h with h | h
    · simp [PixiDisplay.render, h]
    · simp only [PixiDisplay.get_visible] at h
      simp [PixiDisplay.render, h]
  · intro r hp hv hr
    simp only [PixiDisplay.get_visible] at hv
    simp [PixiDisplay.render, hp, hv, hr, World.log]

/-- An unpaused visible display draws once; a paused one does not draw. -/
theorem render_contract_witness :
    liveDisplay.render livePage 16 =
      ⟨liveDisplay, { livePage with calls := [Call.rendererRender 0 (some 0)] }, .normal⟩ ∧
    PixiDisplay.render { liveDisplay with paused := true } livePage (-5) =
      ⟨{ liveDisplay with paused := true }, livePage, .normal⟩ :=
  ⟨(render_contract liveDisplay livePage 16).2 0 rfl rfl rfl,
   (render_contract { liveDisplay with paused := true } livePage (-5)).1 (Or.inl rfl)⟩

/-! ## visible -/

/-- C4: on a display bound to a canvas, setting `visible` to `v` returns normally, makes
the getter return `v`, and sets `style.display` of that canvas to "block" when `v` is
true and to "none" when it is false, leaving its other properties as they were.  On an
unpaused display holding a renderer, after `visible = false` a render issues no call,
and after `visible = true` again the next render issues one `renderer.render` call on
the stage of the display. -/
theorem visible_contract (d : PixiDisplay) (w : World) (c : Nat) (e : Element)
    (hc : d.canvas = some c) (he : w.elements[c]? = some e) :
    (∀ v : Bool,
      (d.set_visible w v).completion = .normal ∧
      (d.set_visible w v).self.get_visible = v ∧
      (d.set_visible w v).world.elements[c]? =
        some { e with styleDisplay := if v then "block" else "none" }) ∧
    (∀ (r : Nat) (elapsed : Int), d.paused = false → d.renderer = some r →
      ((d.set_visible w false).self.render (d.set_visible w false).world elapsed).world.calls
        = w.calls ∧
      (((d.set_visible w false).self.set_visible (d.set_visible w false).world true).self.render
        ((d.set_visible w false).self.set_visible (d.set_visible w false).world true).world
        elapsed).world.calls = w.calls ++ [Call.rendererRender r d.stage] ∧
      (((d.set_visible w false).self.set_visible (d.set_visible w false).world true).self.render
        ((d.set_visible w false).self.set_visible (d.set_visible w false).world true).world
        elapsed).completion = .normal) := by
  refine ⟨?_, ?_⟩
  · intro v
    refine ⟨?_, ?_, ?_⟩
    · simp [PixiDisplay.set_visible, hc]
    · simp [PixiDisplay.set_visible, hc, PixiDisplay.get_visible]
    · simp only [PixiDisplay.set_visible, hc]
      exact updateAt_getElem?_self _ _ _ _ he
  · intro r elapsed hp hr
    simp [PixiDisplay.set_visible, hc, PixiDisplay.render, hp, hr, World.log]

/-- Hiding and showing the 800 by 600 canvas of the sample page. -/
theorem visible_contract_witness :
    (liveDisplay.set_visible livePage false).world.elements[0]? =
      some ⟨"canvas", 800, 600, "none"⟩ ∧
    (liveDisplay.set_visible livePage true).world.elements[0]? =
      some ⟨"canvas", 800, 600, "block"⟩ :=
  ⟨((visible_contract liveDisplay livePage 0 ⟨"canvas", 800, 600, ""⟩ rfl rfl).1 false).2.2,
   ((visible_contract liveDisplay livePage 0 ⟨"canvas", 800, 600, ""⟩ rfl rfl).1 true).2.2⟩

/-! ## resize -/

/-- C5 (as amended): on a display bound to a canvas, for every pair of positive
integers `width` and `height` that are at most 2147483647, `resize(width, height)`
returns normally and leaves that canvas with exactly the given width and height; no
call reaches the renderer or the stage, the renderer and stage objects are unchanged,
and the display still refers to the same renderer and stage. -/
theorem resize_contract_in_range (d : PixiDisplay) (w : World) (c : Nat) (e : Element)
    (width height : Int) (hc : d.canvas = some c) (he : w.elements[c]? = some e)
    (hw : 0 < width) (hw2 : width ≤ 2147483647)
    (hh : 0 < height) (hh2 : height ≤ 2147483647) :
    (d.resize w width height).completion = .normal ∧
    (d.resize w width height).world.elements[c]? =
      some { e with width := width, height := height } ∧
    (d.resize w width height).world.calls = w.calls ∧
    (d.resize w width height).world.renderers = w.renderers ∧
    (d.resize w width height).world.stages = w.stages ∧
    (d.resize w width height).self.renderer = d.renderer ∧
    (d.resize w width height).self.stage = d.stage := by
  have e1 : setUnsignedLong canvasDefaultWidth width = width :=
    setUnsignedLong_in_range _ _ (le_of_lt hw) hw2
  have e2 : setUnsignedLong canvasDefaultHeight height = height :=
    setUnsignedLong_in_range _ _ (le_of_lt hh) hh2
  refine ⟨?_, ?_, ?_, ?_, ?_, ?_, ?_⟩ <;> simp only [PixiDisplay.resize, hc, e1, e2]
  have h1 := updateAt_getElem?_self w.elements c (fun x => { x with width := width }) e he
  exact updateAt_getElem?_self _ c (fun x => { x with height := height }) _ h1

/-- Resizing the sample canvas to 1024 by 768 makes no call. -/
theorem resize_contract_in_range_witness :
    (liveDisplay.resize livePage 1024 768).world.elements[0]? =
      some ⟨"canvas", 1024, 768, ""⟩ ∧
    (liveDisplay.resize livePage 1024 768).world.calls = [] :=
  ⟨(resize_contract_in_range liveDisplay livePage 0 ⟨"canvas", 800, 600, ""⟩ 1024 768 rfl rfl
      (by decide) (by decide) (by decide) (by decide)).2.1,
   (resize_contract_in_range liveDisplay livePage 0 ⟨"canvas", 800, 600, ""⟩ 1024 768 rfl rfl
      (by decide) (by decide) (by decide) (by decide)).2.2.1⟩

/-- C5 (as stated) fails: 4294967297 and 2147483648 are positive integers, and
`resize(4294967297, 2147483648)` on the display bound to the 800 by 600 canvas returns
normally and leaves the canvas 1 wide and 150 high. -/
theorem resize_out_of_range :
    (0 : Int) < 4294967297 ∧ (0 : Int) < 2147483648 ∧
    liveDisplay.canvas = some 0 ∧
    livePage.elements[0]? = some ⟨"canvas", 800, 600, ""⟩ ∧
    (liveDisplay.resize livePage 4294967297 2147483648).completion = .normal ∧
    (liveDisplay.resize livePage 4294967297 2147483648).world.elements[0]? =
      some ⟨"canvas", 1, 150, ""⟩ ∧
    (liveDisplay.resize livePage 4294967297 2147483648).world.elements[0]? ≠
      some ⟨"canvas", 4294967297, 2147483648, ""⟩ := by
  decide

/-! ## render after destroy -/

/-- C9: when `destroy` has completed on a display, the display holds no renderer and its
`paused` and `visible` flags are as before; a following `render` throws a TypeError (the
null renderer is dereferenced) exactly when `paused` is false and `visible` is true, and
returns normally otherwise; in both cases the display and the world are left as
`destroy` left them, so no call is issued and no error value is produced. -/
theorem render_after_destroy (d : PixiDisplay) (w : World) (elapsed : Int)
    (hd : (d.destroy w).completion = .normal) :
    (d.destroy w).self.renderer = none ∧
    (d.destroy w).self.paused = d.paused ∧
    (d.destroy w).self.get_visible = d.get_visible ∧
    (((d.destroy w).self.render (d.destroy w).world elapsed).completion = .thrown .TypeError ↔
      (d.paused = false ∧ d.get_visible = true)) ∧
    (((d.destroy w).self.render (d.destroy w).world elapsed).completion = .normal ↔
      (d.paused = true ∨ d.get_visible = false)) ∧
    ((d.destroy w).self.render (d.destroy w).world elapsed).self = (d.destroy w).self ∧
    ((d.destroy w).self.render (d.destroy w).world elapsed).world = (d.destroy w).world := by
  unfold PixiDisplay.destroy at hd ⊢
  unfold PixiDisplay.set_enabled at hd ⊢
  cases hg : w.globalStage with
  | unbound => simp [hg] at hd
  | nonStage => simp [hg] at hd
  | stage s =>
    cases hs : d.stage with
    | none => simp [hg, hs] at hd
    | some st =>
      cases hr : d.renderer with
      | none => simp [hg, hs, hr] at hd
      | some r =>
        cases hp : d.paused <;> cases hv : d._visible <;>
          simp [hg, hs, hr, hp, hv, PixiDisplay.render, PixiDisplay.get_visible]

/-- On a page that binds the global name, destroy completes and the next render throws. -/
theorem render_after_destroy_witness :
    ((liveDisplay.destroy boundPage).self.render (liveDisplay.destroy boundPage).world
        16).completion = .thrown .TypeError ∧
    (liveDisplay.destroy boundPage).self.renderer = none :=
  ⟨(render_after_destroy liveDisplay boundPage 16 rfl).2.2.2.1.mpr ⟨rfl, rfl⟩,
   (render_after_destroy liveDisplay boundPage 16 rfl).1⟩

/-! ## The constructor -/

/-- Wherever no `options` property is inherited, the constructor throws a TypeError for
every id and every configuration, and allocates neither a stage nor a renderer. -/
theorem constructor_never_completes (w : World) (id : String) (options : Option Options)
    (h : w.inheritedOptions = none) :
    (PixiDisplay.constructor w id options).completion = .thrown .TypeError ∧
    (PixiDisplay.constructor w id options).self.renderer = none ∧
    (PixiDisplay.constructor w id options).world = w := by
  unfold PixiDisplay.constructor
  cases hc : getElementById w id with
  | none => simp [PixiDisplay.proto]
  | some c =>
    cases he : w.elements[c]? with
    | none => simp [he, PixiDisplay.proto]
    | some el => simp [he, h, PixiDisplay.proto]

/-- C2: on a page whose canvas resolves, construction with `forceContext` "canvas2d",
with "webgl" and with `forceContext` unset each ends in a TypeError thrown at line 33
(`this.options` is undefined); the display is left without a renderer and no renderer
has been made. -/
theorem constructor_forceContext_throws :
    (PixiDisplay.constructor page "canvas"
      (some { Options.empty with forceContext := .str "canvas2d" })).completion
        = .thrown .TypeError ∧
    (PixiDisplay.constructor page "canvas"
      (some { Options.empty with forceContext := .str "canvas2d" })).self.renderer = none ∧
    (PixiDisplay.constructor page "canvas"
      (some { Options.empty with forceContext := .str "webgl" })).completion
        = .thrown .TypeError ∧
    (PixiDisplay.constructor page "canvas"
      (some { Options.empty with forceContext := .str "webgl" })).self.renderer = none ∧
    (PixiDisplay.constructor page "canvas" (some Options.empty)).completion
        = .thrown .TypeError ∧
    (PixiDisplay.constructor page "canvas" (some Options.empty)).self.renderer = none ∧
    (PixiDisplay.constructor page "canvas"
      (some { Options.empty with forceContext := .str "canvas2d" })).world.renderers = [] := by
  decide

/-- C8: construction on the 800 by 600 canvas with the configuration omitted ends in a
TypeError at line 33: width, height and visible have been recorded, but the display has
no stage and no renderer (so no `clearView`), `enabled` is still false and no call has
been made.  Were an `options` property inherited, line 69 would be reached and the
setter of `enabled` would throw a ReferenceError on the unbound name `stage`, again
without a `setInteractive` call. -/
theorem constructor_omitted_options_throws :
    PixiDisplay.constructor page "canvas" none =
      ⟨{ id := some "canvas", canvas := some 0, width := 800, height := 600, stage := none,
         renderer := none, paused := false, _enabled := false, _visible := true },
       page, .thrown .TypeError⟩ ∧
    (PixiDisplay.constructor { page with inheritedOptions := some Options.empty }
      "canvas" none).completion = .thrown .ReferenceError ∧
    (PixiDisplay.constructor { page with inheritedOptions := some Options.empty }
      "canvas" none).world.calls = [] := by
  decide

/-! ## enabled -/

/-- C3: on a page without a global named `stage`, setting `enabled` to false on a live
display throws a ReferenceError after storing the flag, and neither `setInteractive`
nor `forceUpdateInteraction` is called on the stage of the display; setting it to true
throws as well.  Where the global `stage` is another stage (object 7), both calls go to
that object and not to the stage of the display (object 0). -/
theorem enabled_setter_misses_own_stage :
    liveDisplay.set_enabled livePage false =
      ⟨{ liveDisplay with _enabled := false }, livePage, .thrown .ReferenceError⟩ ∧
    liveDisplay.set_enabled livePage true =
      ⟨liveDisplay, livePage, .thrown .ReferenceError⟩ ∧
    liveDisplay.stage = some 0 ∧
    (liveDisplay.set_enabled { livePage with globalStage := .stage 7 } false).world.calls =
      [Call.setInteractive 7 false, Call.forceUpdateInteraction 7] := by
  decide

/-! ## width and height -/

/-- C6: a display whose width and height equal those of its 800 by 600 canvas keeps
width 800 and height 600 after `resize(1024, 768)`, while the canvas is then 1024 by
768. -/
theorem resize_leaves_width_height_stale :
    livePage.elements[0]? = some ⟨"canvas", 800, 600, ""⟩ ∧
    liveDisplay.canvas = some 0 ∧ liveDisplay.width = 800 ∧ liveDisplay.height = 600 ∧
    (liveDisplay.resize livePage 1024 768).completion = .normal ∧
    (liveDisplay.resize livePage 1024 768).world.elements[0]? =
      some ⟨"canvas", 1024, 768, ""⟩ ∧
    (liveDisplay.resize livePage 1024 768).self.width = 800 ∧
    (liveDisplay.resize livePage 1024 768).self.height = 600 := by
  decide

/-- The method `resize` never changes the receiver. -/
theorem resize_self (d : PixiDisplay) (w : World) (width height : Int) :
    (d.resize w width height).self = d := by
  unfold PixiDisplay.resize
  cases d.canvas <;> rfl

/-! ## destroy -/

/-- Where the global `stage` is a stage `g`, `destroy` on a display holding a stage `s`
and a renderer `r` completes: the calls are `setInteractive(false)` and
`forceUpdateInteraction()` on `g`, then `removeChildren(true)` and `destroy()` on `s`,
then `destroy()` on `r`, and the three references are null afterwards. -/
theorem destroy_with_bound_stage (d : PixiDisplay) (w : World) (g s r : Nat)
    (hg : w.globalStage = .stage g) (hs : d.stage = some s) (hr : d.renderer = some r) :
    d.destroy w =
      ⟨{ d with _enabled := false, renderer := none, stage := none, canvas := none },
       { w with calls := w.calls ++ [Call.setInteractive g false,
           Call.forceUpdateInteraction g, Call.removeChildren s true, Call.stageDestroy s,
           Call.rendererDestroy r] },
       .normal⟩ := by
  simp [PixiDisplay.destroy, PixiDisplay.set_enabled, hg, hs, hr, World.log]

/-- The constructor never changes the global binding of `stage`. -/
theorem constructor_globalStage (w : World) (id : String) (options : Option Options) :
    (PixiDisplay.constructor w id options).world.globalStage = w.globalStage := by
  unfold PixiDisplay.constructor
  cases hc : getElementById w id with
  | none => simp
  | some c =>
    cases he : w.elements[c]? with
    | none => simp [he]
    | some el =>
      cases ho : w.inheritedOptions with
      | none => simp [he, ho]
      | some thisOptions =>
        cases hg : w.globalStage <;> simp [he, ho, hg, PixiDisplay.set_enabled, World.log]

/-- When construction completes, the global `stage` denotes a stage and the display
holds the stage and the renderer the constructor has just made. -/
theorem constructor_completes (w : World) (id : String) (options : Option Options)
    (h : (PixiDisplay.constructor w id options).completion = .normal) :
    (∃ g, (PixiDisplay.constructor w id options).world.globalStage = .stage g) ∧
    (PixiDisplay.constructor w id options).self.stage = some w.stages.length ∧
    (PixiDisplay.constructor w id options).self.renderer = some w.renderers.length := by
  unfold PixiDisplay.constructor at h ⊢
  cases hc : getElementById w id with
  | none => simp [hc] at h
  | some c =>
    cases he : w.elements[c]? with
    | none => simp [hc, he] at h
    | some el =>
      cases ho : w.inheritedOptions with
      | none => simp [hc, he, ho] at h
      | some thisOptions =>
        cases hg : w.globalStage with
        | unbound => simp [hc, he, ho, hg, PixiDisplay.set_enabled] at h
        | nonStage => simp [hc, he, ho, hg, PixiDisplay.set_enabled] at h
        | stage g => simp [hc, he, ho, hg, PixiDisplay.set_enabled, World.log]

/-- No operation changes the stage or renderer reference of the display or the global
binding of `stage`. -/
theorem Op.apply_keeps (op : Op) (d : PixiDisplay) (w : World) :
    (op.apply d w).self.stage = d.stage ∧
    (op.apply d w).self.renderer = d.renderer ∧
    (op.apply d w).world.globalStage = w.globalStage := by
  cases op with
  | resize width height =>
    simp only [Op.apply, PixiDisplay.resize]
    cases hc : d.canvas <;> simp
  | render elapsed =>
    simp only [Op.apply, PixiDisplay.render]
    cases hp : d.paused <;> cases hv : d._visible <;> cases hr : d.renderer <;>
      simp [World.log, hr]
  | setEnabled value =>
    simp only [Op.apply, PixiDisplay.set_enabled]
    cases hg : w.globalStage <;> cases value <;> simp [World.log, hg]
  | setVisible value =>
    simp only [Op.apply, PixiDisplay.set_visible]
    cases hc : d.canvas <;> simp
  | setPaused value => simp [Op.apply]

/-- A sequence of operations keeps what each operation keeps. -/
theorem runOps_keeps (ops : List Op) (d : PixiDisplay) (w : World) :
    (runOps ops d w).1.stage = d.stage ∧
    (runOps ops d w).1.renderer = d.renderer ∧
    (runOps ops d w).2.globalStage = w.globalStage := by
  induction ops generalizing d w with
  | nil => simp [runOps]
  | cons op ops ih =>
    obtain ⟨h1, h2, h3⟩ := ih (op.apply d w).self (op.apply d w).world
    obtain ⟨k1, k2, k3⟩ := op.apply_keeps d w
    simp only [runOps]
    exact ⟨h1.trans k1, h2.trans k2, h3.trans k3⟩

/-- C7: take a display whose construction has completed, after any sequence of
`resize`, `render` and updates of `enabled`, `visible` and `paused`.  Then `destroy`
returns normally; it first disables input (`enabled` becomes false, with
`setInteractive(false)` and `forceUpdateInteraction()` sent to the stage the name
`stage` denotes), then calls `removeChildren(true)` and `destroy()` on the stage of the
display and `destroy()` on its renderer, in this order and with no other call; and the
renderer, stage and canvas references of the display are null afterwards. -/
theorem destroy_after_construction (w : World) (id : String) (options : Option Options)
    (ops : List Op) (h : (PixiDisplay.constructor w id options).completion = .normal) :
    ∃ g, w.globalStage = .stage g ∧
      (runOps ops (PixiDisplay.constructor w id options).self
          (PixiDisplay.constructor w id options).world).1.destroy
        (runOps ops (PixiDisplay.constructor w id options).self
          (PixiDisplay.constructor w id options).world).2 =
      ⟨{ (runOps ops (PixiDisplay.constructor w id options).self
            (PixiDisplay.constructor w id options).world).1 with
          _enabled := false, renderer := none, stage := none, canvas := none },
       { (runOps ops (PixiDisplay.constructor w id options).self
            (PixiDisplay.constructor w id options).world).2 with
          calls := (runOps ops (PixiDisplay.constructor w id options).self
            (PixiDisplay.constructor w id options).world).2.calls ++
            [Call.setInteractive g false, Call.forceUpdateInteraction g,
             Call.removeChildren w.stages.length true, Call.stageDestroy w.stages.length,
             Call.rendererDestroy w.renderers.length] },
       .normal⟩ := by
  obtain ⟨⟨g, hg⟩, hs, hr⟩ := constructor_completes w id options h
  obtain ⟨k1, k2, k3⟩ := runOps_keeps ops (PixiDisplay.constructor w id options).self
    (PixiDisplay.constructor w id options).world
  have hgw : w.globalStage = .stage g := by
    rw [← constructor_globalStage w id options]; exact hg
  exact ⟨g, hgw, destroy_with_bound_stage _ _ g _ _ (k3.trans hg) (k1.trans hs) (k2.trans hr)⟩

/-- On the host page a display is constructed, resized, hidden, rendered, shown and
paused; `destroy` then completes with all three references null. -/
theorem destroy_after_construction_witness :
    ∃ g, hostPage.globalStage = .stage g ∧
      (runOps [.resize 1024 768, .setVisible false, .render 16, .setVisible true,
          .setPaused true]
          (PixiDisplay.constructor hostPage "canvas" none).self
          (PixiDisplay.constructor hostPage "canvas" none).world).1.destroy
        (runOps [.resize 1024 768, .setVisible false, .render 16, .setVisible true,
          .setPaused true]
          (PixiDisplay.constructor hostPage "canvas" none).self
          (PixiDisplay.constructor hostPage "canvas" none).world).2 =
      ⟨{ id := some "canvas", canvas := none, width := 800, height := 600, stage := none,
         renderer := none, paused := true, _enabled := false, _visible := true },
       { hostPage with
         elements := [⟨"canvas", 1024, 768, "block"⟩],
         stages := [⟨.num 0⟩, ⟨.num 0⟩],
         renderers := [⟨.autoDetectRenderer, 800, 600, 0, false, some false, some false,
           some false⟩],
         calls := [Call.setInteractive 0 true, Call.setInteractive 0 false,
           Call.forceUpdateInteraction 0, Call.removeChildren 1 true, Call.stageDestroy 1,
           Call.rendererDestroy 0] },
       .normal⟩ := by
  obtain ⟨g, hg, hd⟩ := destroy_after_construction hostPage "canvas" none
    [.resize 1024 768, .setVisible false, .render 16, .setVisible true, .setPaused true]
    (by decide)
  have hg0 : g = 0 := by
    have : GlobalBinding.stage 0 = GlobalBinding.stage g := hg
    injection this with h0
    exact h0.symm
  subst hg0
  exact ⟨0, rfl, hd.trans (by decide)⟩

/-! ## DrawingApp.destroy -/

/-- C10: from every module state `DrawingApp.destroy` ends in a TypeError, thrown by
`stage.removeChildren()` on the `stage` variable it has just set to null, with `stage`,
`sprite` and `texture` null.  After `init`, with and without the button loaded, the
trace it leaves holds no `removeChildren` call; without the button the `button` variable
is still undefined. -/
theorem drawingApp_destroy_throws (m : DrawingApp) :
    (m.destroy).completion = .thrown .TypeError ∧
    (m.destroy).app.stage = .null ∧
    (m.destroy).app.sprite = .null ∧
    (m.destroy).app.texture = .null ∧
    appAfterInit.stage = .obj 0 ∧
    (appAfterInit.destroy).app.trace = appAfterInit.trace ++
      [AppCall.debugLog "DrawingApp destroy.", AppCall.setMouseup 0 false,
       AppCall.setMousedown 0 false, AppCall.graphicsClear 3] ∧
    (appAfterInit.destroy).app.button = .undefined ∧
    (appWithButton.destroy).app.trace = appWithButton.trace ++
      [AppCall.debugLog "DrawingApp destroy.", AppCall.setMouseup 0 false,
       AppCall.setMousedown 0 false, AppCall.buttonDestroy 4, AppCall.graphicsClear 3] ∧
    (appWithButton.destroy).app.button = .null := by
  refine ⟨?_, ?_, ?_, ?_, ?_, ?_, ?_, ?_, ?_⟩
  · simp [DrawingApp.destroy]
  · simp [DrawingApp.destroy]
  · simp [DrawingApp.destroy]
  · simp [DrawingApp.destroy]
  all_goals decide

end CloudKid
